import Mathlib

/-!
# HelloWorld demo (proj/Demo/HelloWorld/src/main.cpp)

A shallow embedding of the single translation unit of the demo: the GLFW key
callback, the DPI-scale computation, `main` as a function from the outcomes of
the library calls to a trace of calls and an exit code, and the per-frame
transform computation.

Conventions.
* C `float`/`double` values are idealised as elements of a linearly ordered
  field `α` (instantiated at `ℚ` for evaluation and at `ℝ` for the
  trigonometric statements); rounding is not modelled.
* `cos`, `sin` and `sqrt` are passed explicitly in a `FloatOps α` record.
* Library functions (GLFW, GLM, Dear ImGui, OpenGL) are not part of the
  translation unit; each library function whose result matters is modelled by
  a definition whose doc comment says so, every other library call is only
  recorded in the trace.
-/

namespace HelloWorld

/-! ## GLM vectors and matrices -/

/-- Modelled from the spec: the GLM and Dear ImGui headers are not under src/;
two-component vector, `glm::vec2` / `ImVec2`. -/
@[ext] structure Vec2 (α : Type) where
  x : α
  y : α
deriving DecidableEq, Repr

/-- Modelled from the spec: the GLM headers are not under src/;
three-component vector, `glm::vec3`. -/
@[ext] structure Vec3 (α : Type) where
  x : α
  y : α
  z : α
deriving DecidableEq, Repr

/-- Modelled from the spec: the GLM headers are not under src/;
four-component vector, `glm::vec4`. -/
@[ext] structure Vec4 (α : Type) where
  x : α
  y : α
  z : α
  w : α
deriving DecidableEq, Repr

/-- Modelled from the spec: the GLM headers are not under src/; column-major
4x4 matrix, `glm::mat4`: `c0 .. c3` are the columns `m[0] .. m[3]`. -/
@[ext] structure Mat4 (α : Type) where
  c0 : Vec4 α
  c1 : Vec4 α
  c2 : Vec4 α
  c3 : Vec4 α
deriving DecidableEq, Repr

/-- Modelled from the spec: the C math library is not under src/; the three
functions of it that GLM calls, passed explicitly. -/
structure FloatOps (α : Type) where
  cos : α → α
  sin : α → α
  sqrt : α → α

section Glm

variable {α : Type} [LinearOrderedField α]

/-- Modelled from the spec: GLM is a library that is not under src/; this is
its component-wise `vec4 + vec4`. -/
def Vec4.add (a b : Vec4 α) : Vec4 α :=
  ⟨a.x + b.x, a.y + b.y, a.z + b.z, a.w + b.w⟩

/-- Modelled from the spec: GLM is a library that is not under src/; this is
its `vec4 * scalar`. -/
def Vec4.scale (a : Vec4 α) (s : α) : Vec4 α :=
  ⟨a.x * s, a.y * s, a.z * s, a.w * s⟩

/-- Modelled from the spec: GLM is a library that is not under src/; this is
its `vec3 * scalar`. -/
def Vec3.scale (a : Vec3 α) (s : α) : Vec3 α :=
  ⟨a.x * s, a.y * s, a.z * s⟩

/-- Modelled from the spec: GLM is a library that is not under src/; this is
its `scalar * vec3`. -/
def Vec3.smul (s : α) (a : Vec3 α) : Vec3 α :=
  ⟨s * a.x, s * a.y, s * a.z⟩

/-- Modelled from the spec: GLM is a library that is not under src/; this is
its `dot(vec3, vec3)`. -/
def Vec3.dot (a b : Vec3 α) : α :=
  a.x * b.x + a.y * b.y + a.z * b.z

/-- Modelled from the spec: GLM is a library that is not under src/; this is
its `inversesqrt(x) = 1 / sqrt(x)`. -/
def inversesqrt (ops : FloatOps α) (x : α) : α :=
  1 / ops.sqrt x

/-- Modelled from the spec: GLM is a library that is not under src/; this is
its `normalize(v) = v * inversesqrt(dot(v, v))`. -/
def normalize (ops : FloatOps α) (v : Vec3 α) : Vec3 α :=
  v.scale (inversesqrt ops (Vec3.dot v v))

/-- Modelled from the spec: GLM is a library that is not under src/; this is
the constructor `glm::mat4 m(s)`, the diagonal matrix with `s` on the
diagonal. -/
def Mat4.diag (s : α) : Mat4 α :=
  ⟨⟨s, 0, 0, 0⟩, ⟨0, s, 0, 0⟩, ⟨0, 0, s, 0⟩, ⟨0, 0, 0, s⟩⟩

/-- Modelled from the spec: GLM is a library that is not under src/; this is
its `mat4 * vec4` (also the GLSL product used by the vertex shader): the
linear combination of the columns of `m` with the components of `v`. -/
def Mat4.mulVec (m : Mat4 α) (v : Vec4 α) : Vec4 α :=
  (((m.c0.scale v.x).add (m.c1.scale v.y)).add (m.c2.scale v.z)).add (m.c3.scale v.w)

/-- Modelled from the spec: GLM is a library that is not under src/; this is
its `mat4 * mat4`: column `i` of the result is `m1 * m2[i]`. -/
def Mat4.mul (m1 m2 : Mat4 α) : Mat4 α :=
  ⟨m1.mulVec m2.c0, m1.mulVec m2.c1, m1.mulVec m2.c2, m1.mulVec m2.c3⟩

/-- Modelled from the spec: GLM is a library that is not under src/; this is
`glm::ortho(left, right, bottom, top, zNear, zFar)` in its default
configuration (right-handed, depth range -1..1, `orthoRH_NO`): the identity
matrix with the three scale entries and the three translation entries
overwritten. -/
def ortho (left right bottom top zNear zFar : α) : Mat4 α :=
  let Result : Mat4 α := Mat4.diag 1
  ⟨⟨2 / (right - left), Result.c0.y, Result.c0.z, Result.c0.w⟩,
   ⟨Result.c1.x, 2 / (top - bottom), Result.c1.z, Result.c1.w⟩,
   ⟨Result.c2.x, Result.c2.y, -(2 / (zFar - zNear)), Result.c2.w⟩,
   ⟨-((right + left) / (right - left)), -((top + bottom) / (top - bottom)),
    -((zFar + zNear) / (zFar - zNear)), Result.c3.w⟩⟩

/-- Modelled from the spec: GLM is a library that is not under src/; this is
`glm::rotate(m, angle, v)`: the axis is normalised, the 3x3 rotation is built
by the axis-angle formula from `cos angle` and `sin angle`, and the first
three columns of `m` are recombined with it; the fourth column is kept. -/
def rotate (ops : FloatOps α) (m : Mat4 α) (angle : α) (v : Vec3 α) : Mat4 α :=
  let a := angle
  let c := ops.cos a
  let s := ops.sin a
  let axis := normalize ops v
  let temp := Vec3.smul (1 - c) axis
  let r00 := c + temp.x * axis.x
  let r01 := temp.x * axis.y + s * axis.z
  let r02 := temp.x * axis.z - s * axis.y
  let r10 := temp.y * axis.x - s * axis.z
  let r11 := c + temp.y * axis.y
  let r12 := temp.y * axis.z + s * axis.x
  let r20 := temp.z * axis.x + s * axis.y
  let r21 := temp.z * axis.y - s * axis.x
  let r22 := c + temp.z * axis.z
  ⟨((m.c0.scale r00).add (m.c1.scale r01)).add (m.c2.scale r02),
   ((m.c0.scale r10).add (m.c1.scale r11)).add (m.c2.scale r12),
   ((m.c0.scale r20).add (m.c1.scale r21)).add (m.c2.scale r22),
   m.c3⟩

end Glm

/-! ## Header constants -/

/-- Modelled from the spec: the GLFW header is not under src/; `GLFW_TRUE`. -/
def GLFW_TRUE : Int := 1

/-- Modelled from the spec: the GLFW header is not under src/; `GLFW_FALSE`. -/
def GLFW_FALSE : Int := 0

/-- Modelled from the spec: the GLFW header is not under src/; key code of Escape. -/
def GLFW_KEY_ESCAPE : Int := 256

/-- Modelled from the spec: the GLFW header is not under src/; key action "released". -/
def GLFW_RELEASE : Int := 0

/-- Modelled from the spec: the GLFW header is not under src/; key action "pressed". -/
def GLFW_PRESS : Int := 1

/-- Modelled from the spec: the GLFW header is not under src/; key action "held, repeating". -/
def GLFW_REPEAT : Int := 2

/-- Modelled from the spec: the C library header is not under src/; `EXIT_SUCCESS`. -/
def EXIT_SUCCESS : Int := 0

/-- Modelled from the spec: the C library header is not under src/; `EXIT_FAILURE`. -/
def EXIT_FAILURE : Int := 1

/-- Modelled from the spec: the GLFW header is not under src/; the window
hints used by `main`, by name. -/
inductive GlfwHint where
  | GLFW_CONTEXT_VERSION_MAJOR
  | GLFW_CONTEXT_VERSION_MINOR
  | GLFW_OPENGL_PROFILE
deriving DecidableEq, Repr

/-- Modelled from the spec: the GLFW header is not under src/; the values
passed to `glfwWindowHint` by `main`. -/
inductive GlfwHintValue where
  | int (n : Int)
  | GLFW_OPENGL_CORE_PROFILE
deriving DecidableEq, Repr

/-- Modelled from the spec: the Dear ImGui header is not under src/; the
configuration flags used by `main`, by name. -/
inductive ImGuiConfigFlags where
  | NavEnableKeyboard
  | NavEnableGamepad
  | DockingEnable
deriving DecidableEq, Repr

/-- Modelled from the spec: the OpenGL header is not under src/; the
enumerants used by `main`, by name. -/
inductive GLenum where
  | GL_ARRAY_BUFFER
  | GL_STATIC_DRAW
  | GL_VERTEX_SHADER
  | GL_FRAGMENT_SHADER
  | GL_FLOAT
  | GL_TRIANGLES
  | GL_COLOR_BUFFER_BIT
deriving DecidableEq, Repr

/-! ## Data of the translation unit -/

/-- The `Vertex` record: a 2-component position and a 3-component colour. -/
structure Vertex (α : Type) where
  pos : Vec2 α
  col : Vec3 α
deriving DecidableEq, Repr

/-- Size in bytes of `Vertex` (five packed floats), as passed for the stride. -/
def sizeof_Vertex : Nat := 20

/-- Byte offset of `Vertex::pos`. -/
def offsetof_Vertex_pos : Nat := 0

/-- Byte offset of `Vertex::col`. -/
def offsetof_Vertex_col : Nat := 8

/-- Modelled from the spec: the Dear ImGui header is not under src/; the two
fields of `ImGuiPlatformMonitor` that `UpdateImGUIDpiScale` reads. -/
structure ImGuiPlatformMonitor (α : Type) where
  MainSize : Vec2 α
  DpiScale : α
deriving DecidableEq, Repr

/-- One argument of a `printf` call. -/
inductive PrintfArg (α : Type) where
  | int (n : Int)
  | double (x : α)
deriving DecidableEq, Repr

/-- The source text of the vertex shader. -/
def vertex_shader_text : String :=
  "#version 330\n" ++
  "uniform mat4 MVP;\n" ++
  "in vec3 vCol;\n" ++
  "in vec2 vPos;\n" ++
  "out vec3 color;\n" ++
  "void main()\n" ++
  "\x7b\n" ++
  "    gl_Position = MVP * vec4(vPos, 0.0, 1.0);\n" ++
  "    color = vCol;\n" ++
  "\x7d\n"

/-- The source text of the fragment shader. -/
def fragment_shader_text : String :=
  "#version 330\n" ++
  "in vec3 color;\n" ++
  "out vec4 fragment;\n" ++
  "void main()\n" ++
  "\x7b\n" ++
  "    fragment = vec4(color, 1.0);\n" ++
  "\x7d\n"

/-- The library calls made by the program, with the arguments that the
program chooses. Accessors without effect (`ImGui::GetIO`, `ImGui::GetStyle`,
`ImGui::GetPlatformIO`) are not recorded; the write `cfg.ConfigFlags |= f` is
recorded as `ImGui_ConfigFlags_or f`. -/
inductive Call (α : Type) where
  | glfwSetErrorCallback
  | glfwInit
  | glfwWindowHint (hint : GlfwHint) (value : GlfwHintValue)
  | glfwCreateWindow (width height : Int) (title : String)
  | glfwTerminate
  | glfwSetKeyCallback
  | glfwMakeContextCurrent
  | gladLoadGL
  | glfwSwapInterval (interval : Int)
  | IMGUI_CHECKVERSION
  | ImGui_CreateContext
  | ImGui_ConfigFlags_or (flag : ImGuiConfigFlags)
  | ImGui_ImplGlfw_InitForOpenGL (install_callbacks : Bool)
  | ImGui_ImplOpenGL3_Init
  | glGenBuffers (n : Nat)
  | glBindBuffer (target : GLenum) (buffer : Nat)
  | glBufferData (target : GLenum) (size : Nat) (data : List (Vertex α)) (usage : GLenum)
  | glCreateShader (type : GLenum)
  | glShaderSource (shader : Nat) (count : Nat) (text : String)
  | glCompileShader (shader : Nat)
  | glCreateProgram
  | glAttachShader (program shader : Nat)
  | glLinkProgram (program : Nat)
  | glGetUniformLocation (program : Nat) (name : String)
  | glGetAttribLocation (program : Nat) (name : String)
  | glGenVertexArrays (n : Nat)
  | glBindVertexArray (array : Nat)
  | glEnableVertexAttribArray (index : Int)
  | glVertexAttribPointer (index : Int) (size : Nat) (type : GLenum) (normalized : Bool)
      (stride : Nat) (pointer : Nat)
  | printf (format : String) (args : List (PrintfArg α))
  | ImGuiStyle_ScaleAllSizes (scale_factor : α)
  | ImFontAtlas_AddFontFromFileTTF (filename : String) (size_pixels : α)
  | glfwWindowShouldClose
  | glfwPollEvents
  | glClear (mask : GLenum)
  | ImGui_ImplOpenGL3_NewFrame
  | ImGui_ImplGlfw_NewFrame
  | ImGui_NewFrame
  | ImGui_ShowDemoWindow
  | glfwGetFramebufferSize
  | glViewport (x y width height : Int)
  | glfwGetTime
  | glUseProgram (program : Nat)
  | glUniformMatrix4fv (location : Int) (count : Nat) (transpose : Bool) (value : Mat4 α)
  | glDrawArrays (mode : GLenum) (first : Int) (count : Int)
  | ImGui_Render
  | ImGui_GetDrawData
  | ImGui_ImplOpenGL3_RenderDrawData
  | glfwSwapBuffers
  | ImGui_ImplOpenGL3_Shutdown
  | ImGui_ImplGlfw_Shutdown
  | ImGui_DestroyContext
  | glfwDestroyWindow

/-- The library a call belongs to, read off the name of the function. -/
inductive Library where
  | glfw
  | glad
  | imgui
  | gl
  | libc
deriving DecidableEq, Repr

/-- The library of each call. -/
def Call.library {α : Type} : Call α → Library
  | .glfwSetErrorCallback => .glfw
  | .glfwInit => .glfw
  | .glfwWindowHint _ _ => .glfw
  | .glfwCreateWindow _ _ _ => .glfw
  | .glfwTerminate => .glfw
  | .glfwSetKeyCallback => .glfw
  | .glfwMakeContextCurrent => .glfw
  | .gladLoadGL => .glad
  | .glfwSwapInterval _ => .glfw
  | .IMGUI_CHECKVERSION => .imgui
  | .ImGui_CreateContext => .imgui
  | .ImGui_ConfigFlags_or _ => .imgui
  | .ImGui_ImplGlfw_InitForOpenGL _ => .imgui
  | .ImGui_ImplOpenGL3_Init => .imgui
  | .glGenBuffers _ => .gl
  | .glBindBuffer _ _ => .gl
  | .glBufferData _ _ _ _ => .gl
  | .glCreateShader _ => .gl
  | .glShaderSource _ _ _ => .gl
  | .glCompileShader _ => .gl
  | .glCreateProgram => .gl
  | .glAttachShader _ _ => .gl
  | .glLinkProgram _ => .gl
  | .glGetUniformLocation _ _ => .gl
  | .glGetAttribLocation _ _ => .gl
  | .glGenVertexArrays _ => .gl
  | .glBindVertexArray _ => .gl
  | .glEnableVertexAttribArray _ => .gl
  | .glVertexAttribPointer _ _ _ _ _ _ => .gl
  | .printf _ _ => .libc
  | .ImGuiStyle_ScaleAllSizes _ => .imgui
  | .ImFontAtlas_AddFontFromFileTTF _ _ => .imgui
  | .glfwWindowShouldClose => .glfw
  | .glfwPollEvents => .glfw
  | .glClear _ => .gl
  | .ImGui_ImplOpenGL3_NewFrame => .imgui
  | .ImGui_ImplGlfw_NewFrame => .imgui
  | .ImGui_NewFrame => .imgui
  | .ImGui_ShowDemoWindow => .imgui
  | .glfwGetFramebufferSize => .glfw
  | .glViewport _ _ _ _ => .gl
  | .glfwGetTime => .glfw
  | .glUseProgram _ => .gl
  | .glUniformMatrix4fv _ _ _ _ => .gl
  | .glDrawArrays _ _ _ => .gl
  | .ImGui_Render => .imgui
  | .ImGui_GetDrawData => .imgui
  | .ImGui_ImplOpenGL3_RenderDrawData => .imgui
  | .glfwSwapBuffers => .glfw
  | .ImGui_ImplOpenGL3_Shutdown => .imgui
  | .ImGui_ImplGlfw_Shutdown => .imgui
  | .ImGui_DestroyContext => .imgui
  | .glfwDestroyWindow => .glfw

/-- Whether a call is `glfwCreateWindow`. -/
def Call.isCreateWindow {α : Type} : Call α → Bool
  | .glfwCreateWindow _ _ _ => true
  | _ => false

/-- Whether a call is `glfwTerminate`. -/
def Call.isTerminate {α : Type} : Call α → Bool
  | .glfwTerminate => true
  | _ => false

/-- Whether a call is `glfwSetKeyCallback`. -/
def Call.isSetKeyCallback {α : Type} : Call α → Bool
  | .glfwSetKeyCallback => true
  | _ => false

/-- Whether a call is `glfwMakeContextCurrent`. -/
def Call.isMakeContextCurrent {α : Type} : Call α → Bool
  | .glfwMakeContextCurrent => true
  | _ => false

/-- Whether a call belongs to the render loop: the loop-condition check or
one of the two GLFW calls that open and close an iteration. -/
def Call.isLoopCall {α : Type} : Call α → Bool
  | .glfwWindowShouldClose => true
  | .glfwPollEvents => true
  | .glfwSwapBuffers => true
  | _ => false

/-! ## GLFW window state and events -/

/-- Modelled from the spec: GLFW is a library that is not under src/; the part
of its per-window state that the program reads or writes: the should-close
flag, and whether `key_callback` is installed as the key callback. -/
structure Window where
  shouldClose : Int
  keyCallbackSet : Bool
deriving DecidableEq, Repr

/-- Modelled from the spec: GLFW is a library that is not under src/;
`glfwSetWindowShouldClose(window, value)` stores `value` in the flag. -/
def glfwSetWindowShouldClose (window : Window) (value : Int) : Window :=
  { window with shouldClose := value }

/-- Modelled from the spec: GLFW is a library that is not under src/;
`glfwWindowShouldClose(window)` returns the flag. -/
def glfwWindowShouldClose (window : Window) : Int :=
  window.shouldClose

/-- Modelled from the spec: GLFW is a library that is not under src/;
`glfwSetKeyCallback(window, key_callback)` installs the callback. -/
def glfwSetKeyCallback (window : Window) : Window :=
  { window with keyCallbackSet := true }

/-- Modelled from the spec: GLFW is a library that is not under src/; the
window returned by a successful `glfwCreateWindow`: flag clear, no callback. -/
def newWindow : Window :=
  { shouldClose := GLFW_FALSE, keyCallbackSet := false }

/-- Modelled from the spec: GLFW is a library that is not under src/; an
event delivered during `glfwPollEvents`: a key event, a close request (the
close button of the window), or any other input, which goes to the GUI
library only. -/
inductive Event where
  | key (key scancode action mods : Int)
  | closeRequest
  | other
deriving DecidableEq, Repr

/-- The key callback of the program. -/
def key_callback (window : Window) (key _scancode action _mods : Int) : Window :=
  if key = GLFW_KEY_ESCAPE ∧ action = GLFW_PRESS then
    glfwSetWindowShouldClose window GLFW_TRUE
  else
    window

/-- Modelled from the spec: GLFW is a library that is not under src/; delivery
of one event: a key event goes to the installed key callback, a close request
sets the should-close flag, other events do not touch the window state. -/
def deliver (window : Window) : Event → Window
  | .key key scancode action mods =>
    if window.keyCallbackSet then key_callback window key scancode action mods else window
  | .closeRequest => glfwSetWindowShouldClose window GLFW_TRUE
  | .other => window

/-- Modelled from the spec: GLFW is a library that is not under src/;
`glfwPollEvents()` delivers the pending events in order. -/
def glfwPollEvents (window : Window) (events : List Event) : Window :=
  events.foldl deliver window

section Program

variable {α : Type} [LinearOrderedField α] [FloorRing α]

/-- The three hardcoded vertices. -/
def vertices : List (Vertex α) :=
  [⟨⟨-0.6, -0.4⟩, ⟨1, 0, 0⟩⟩, ⟨⟨0.6, -0.4⟩, ⟨0, 1, 0⟩⟩, ⟨⟨0, 0.6⟩, ⟨0, 0, 1⟩⟩]

/-- Size in bytes of the `vertices` array. -/
def sizeof_vertices : Nat := 3 * sizeof_Vertex

/-- The vertex shader: `gl_Position = MVP * vec4(vPos, 0.0, 1.0); color = vCol`.
Returns `(gl_Position, color)`. -/
def vertex_shader (MVP : Mat4 α) (vCol : Vec3 α) (vPos : Vec2 α) : Vec4 α × Vec3 α :=
  (MVP.mulVec ⟨vPos.x, vPos.y, 0, 1⟩, vCol)

/-- The fragment shader: `fragment = vec4(color, 1.0)`. -/
def fragment_shader (color : Vec3 α) : Vec4 α :=
  ⟨color.x, color.y, color.z, 1⟩

/-- The C conversion `(int) x` of a floating value: truncation toward zero. -/
def toInt (x : α) : Int :=
  if 0 ≤ x then ⌊x⌋ else ⌈x⌉

/-! ## UpdateImGUIDpiScale -/

/-- One iteration of the `for` loop over the monitors: the running
`MonitorScale` is raised to the monitor's `DpiScale` when that is larger, and
two lines are printed. -/
def monitorStep (acc : α × List (Call α)) (Monitor : ImGuiPlatformMonitor α) :
    α × List (Call α) :=
  let BaseDPI : α := 96
  let WinSize := Monitor.MainSize
  let MonitorScale := if acc.1 < Monitor.DpiScale then Monitor.DpiScale else acc.1
  (MonitorScale,
   acc.2 ++
    [Call.printf "List of monitors:\n" [],
     Call.printf "WxH: %dx%d DPI: %.2f (x%.2f)\n"
       [.int (toInt WinSize.x), .int (toInt WinSize.y),
        .double (BaseDPI * Monitor.DpiScale), .double Monitor.DpiScale]])

/-- The `for` loop of `UpdateImGUIDpiScale`, from `MonitorScale = 1.f`:
the final `MonitorScale` and the lines printed. -/
def monitorLoop (Monitors : List (ImGuiPlatformMonitor α)) : α × List (Call α) :=
  Monitors.foldl monitorStep (1, [])

/-- The value of `MonitorScale` after the loop over the monitors. -/
def MonitorScale (Monitors : List (ImGuiPlatformMonitor α)) : α :=
  (monitorLoop Monitors).1

/-- The function `UpdateImGUIDpiScale`, as the list of the calls it makes. -/
def UpdateImGUIDpiScale (Monitors : List (ImGuiPlatformMonitor α)) : List (Call α) :=
  let FontSize : α := 13 * MonitorScale Monitors
  (monitorLoop Monitors).2 ++
    [Call.ImGuiStyle_ScaleAllSizes (MonitorScale Monitors),
     Call.ImFontAtlas_AddFontFromFileTTF "../resources/fonts/DejaVuSansMono.ttf" FontSize]

/-! ## The per-frame transforms -/

/-- The locals `ratio`, `m`, `p` and `mvp` of one iteration of the render loop. -/
structure FrameTransforms (α : Type) where
  ratio : α
  m : Mat4 α
  p : Mat4 α
  mvp : Mat4 α

/-- The transform computation of the loop body, from the framebuffer size
read by `glfwGetFramebufferSize` and the value of `(float) glfwGetTime()`. -/
def frameTransforms (ops : FloatOps α) (width height : Int) (time : α) : FrameTransforms α :=
  let ratio : α := (width : α) / (height : α)
  let m : Mat4 α := Mat4.diag 1
  let p : Mat4 α := ortho (-ratio) ratio (-1) 1 1 (-1)
  let m : Mat4 α := rotate ops m time ⟨0, 0, 1⟩
  let mvp : Mat4 α := p.mul m
  { ratio := ratio, m := m, p := p, mvp := mvp }

/-- The clip-space position of a vertex in a frame: the `gl_Position` that
the vertex shader computes from the uploaded `mvp`. -/
def clipPosition (ops : FloatOps α) (width height : Int) (time : α) (v : Vertex α) : Vec4 α :=
  (vertex_shader (frameTransforms ops width height time).mvp v.col v.pos).1

/-! ## main -/

/-- What the environment supplies to one iteration of the render loop: the
events delivered by `glfwPollEvents`, the framebuffer size and the time. -/
structure FrameInput (α : Type) where
  events : List Event
  width : Int
  height : Int
  time : α

/-- The outcomes of the library calls of `main`: the return value of
`glfwInit`, whether `glfwCreateWindow` returns a window (rather than `NULL`),
the object names and locations returned by OpenGL, the monitor list of the
GUI library, and the input of each iteration of the render loop. -/
structure Env (α : Type) where
  glfwInit : Int
  glfwCreateWindow : Bool
  vertex_buffer : Nat
  vertex_shader : Nat
  fragment_shader : Nat
  program : Nat
  mvp_location : Int
  vpos_location : Int
  vcol_location : Int
  vertex_array : Nat
  Monitors : List (ImGuiPlatformMonitor α)
  frames : Nat → FrameInput α

/-- The body of the render loop: the window state after the iteration and
the calls made. Only `glfwPollEvents` changes the window state. -/
def loopBody (ops : FloatOps α) (env : Env α) (frame : FrameInput α) (window : Window) :
    Window × List (Call α) :=
  let window := glfwPollEvents window frame.events
  let width := frame.width
  let height := frame.height
  let t := frameTransforms ops width height frame.time
  (window,
   [Call.glfwPollEvents,
    Call.glClear .GL_COLOR_BUFFER_BIT,
    Call.ImGui_ImplOpenGL3_NewFrame,
    Call.ImGui_ImplGlfw_NewFrame,
    Call.ImGui_NewFrame,
    Call.ImGui_ShowDemoWindow,
    Call.glfwGetFramebufferSize,
    Call.glViewport 0 0 width height,
    Call.glfwGetTime,
    Call.glUseProgram env.program,
    Call.glUniformMatrix4fv env.mvp_location 1 false t.mvp,
    Call.glBindVertexArray env.vertex_array,
    Call.glDrawArrays .GL_TRIANGLES 0 3,
    Call.ImGui_Render,
    Call.ImGui_GetDrawData,
    Call.ImGui_ImplOpenGL3_RenderDrawData,
    Call.glfwSwapBuffers])

/-- The render loop `while (!glfwWindowShouldClose(window)) body`, started at
iteration `i`, with `fuel` bounding the number of condition checks: the final
window state and the calls made, or `none` when the fuel runs out before the
loop exits. -/
def renderLoop (ops : FloatOps α) (env : Env α) : Nat → Nat → Window →
    Option (Window × List (Call α))
  | 0, _, _ => none
  | fuel + 1, i, window =>
    if glfwWindowShouldClose window = 0 then
      let r := loopBody ops env (env.frames i) window
      match renderLoop ops env fuel (i + 1) r.1 with
      | none => none
      | some (final, rest) => some (final, Call.glfwWindowShouldClose :: r.2 ++ rest)
    else
      some (window, [Call.glfwWindowShouldClose])

/-- The calls of `main` up to and including `glfwInit`. -/
def initCalls : List (Call α) :=
  [Call.glfwSetErrorCallback, Call.glfwInit]

/-- The calls of `main` from the window hints to `glfwCreateWindow`. -/
def createWindowCalls : List (Call α) :=
  [Call.glfwWindowHint .GLFW_CONTEXT_VERSION_MAJOR (.int 3),
   Call.glfwWindowHint .GLFW_CONTEXT_VERSION_MINOR (.int 3),
   Call.glfwWindowHint .GLFW_OPENGL_PROFILE .GLFW_OPENGL_CORE_PROFILE,
   Call.glfwCreateWindow 1920 1080 "OpenGL Triangle"]

/-- The calls of `main` from `glfwSetKeyCallback` to `UpdateImGUIDpiScale`. -/
def setupCalls (env : Env α) : List (Call α) :=
  [Call.glfwSetKeyCallback,
   Call.glfwMakeContextCurrent,
   Call.gladLoadGL,
   Call.glfwSwapInterval 1,
   Call.IMGUI_CHECKVERSION,
   Call.ImGui_CreateContext,
   Call.ImGui_ConfigFlags_or .NavEnableKeyboard,
   Call.ImGui_ConfigFlags_or .NavEnableGamepad,
   Call.ImGui_ConfigFlags_or .DockingEnable,
   Call.ImGui_ImplGlfw_InitForOpenGL true,
   Call.ImGui_ImplOpenGL3_Init,
   Call.glGenBuffers 1,
   Call.glBindBuffer .GL_ARRAY_BUFFER env.vertex_buffer,
   Call.glBufferData .GL_ARRAY_BUFFER sizeof_vertices vertices .GL_STATIC_DRAW,
   Call.glCreateShader .GL_VERTEX_SHADER,
   Call.glShaderSource env.vertex_shader 1 vertex_shader_text,
   Call.glCompileShader env.vertex_shader,
   Call.glCreateShader .GL_FRAGMENT_SHADER,
   Call.glShaderSource env.fragment_shader 1 fragment_shader_text,
   Call.glCompileShader env.fragment_shader,
   Call.glCreateProgram,
   Call.glAttachShader env.program env.vertex_shader,
   Call.glAttachShader env.program env.fragment_shader,
   Call.glLinkProgram env.program,
   Call.glGetUniformLocation env.program "MVP",
   Call.glGetAttribLocation env.program "vPos",
   Call.glGetAttribLocation env.program "vCol",
   Call.glGenVertexArrays 1,
   Call.glBindVertexArray env.vertex_array,
   Call.glEnableVertexAttribArray env.vpos_location,
   Call.glVertexAttribPointer env.vpos_location 2 .GL_FLOAT false sizeof_Vertex
     offsetof_Vertex_pos,
   Call.glEnableVertexAttribArray env.vcol_location,
   Call.glVertexAttribPointer env.vcol_location 3 .GL_FLOAT false sizeof_Vertex
     offsetof_Vertex_col] ++
  UpdateImGUIDpiScale env.Monitors

/-- The calls of `main` after the render loop. -/
def teardownCalls : List (Call α) :=
  [Call.ImGui_ImplOpenGL3_Shutdown,
   Call.ImGui_ImplGlfw_Shutdown,
   Call.ImGui_DestroyContext,
   Call.glfwDestroyWindow,
   Call.glfwTerminate]

/-- The function `main`: from the outcomes of the library calls to the trace
of calls and the exit code passed to `exit`; `none` when the render loop has
not exited within `fuel` condition checks. -/
def main (ops : FloatOps α) (env : Env α) (fuel : Nat) : Option (List (Call α) × Int) :=
  if env.glfwInit = 0 then
    some (initCalls, EXIT_FAILURE)
  else
    if env.glfwCreateWindow = false then
      some (initCalls ++ createWindowCalls ++ [Call.glfwTerminate], EXIT_FAILURE)
    else
      let window := glfwSetKeyCallback newWindow
      match renderLoop ops env fuel 0 window with
      | none => none
      | some (_, loopCalls) =>
        some (initCalls ++ createWindowCalls ++ setupCalls env ++ loopCalls ++ teardownCalls,
              EXIT_SUCCESS)

end Program

/-! ## Concrete inputs -/

/-- Values of `cos`, `sin` at angle 0 and of `sqrt` at 1, for evaluating runs
whose time stays 0 over the rationals. -/
def opsAtZero : FloatOps ℚ :=
  ⟨fun _ => 1, fun _ => 0, fun _ => 1⟩

/-- A frame in which the user presses Escape: 800x600 framebuffer, time 0. -/
def escapeFrame : FrameInput ℚ :=
  { events := [Event.other, Event.key GLFW_KEY_ESCAPE 9 GLFW_PRESS 0],
    width := 800, height := 600, time := 0 }

/-- A frame without input: 800x600 framebuffer, time 0. -/
def idleFrame : FrameInput ℚ :=
  { events := [], width := 800, height := 600, time := 0 }

/-- An environment in which every call succeeds, one monitor at scale 2 is
detected, and Escape is pressed in iteration 2. -/
def sampleEnv : Env ℚ :=
  { glfwInit := GLFW_TRUE, glfwCreateWindow := true,
    vertex_buffer := 1, vertex_shader := 1, fragment_shader := 2, program := 3,
    mvp_location := 0, vpos_location := 1, vcol_location := 0, vertex_array := 1,
    Monitors := [⟨⟨1920, 1080⟩, 2⟩],
    frames := fun i => if i = 2 then escapeFrame else idleFrame }

/-- The environment `sampleEnv` with `glfwInit` failing. -/
def initFailsEnv : Env ℚ :=
  { sampleEnv with glfwInit := GLFW_FALSE }

/-- The environment `sampleEnv` with `glfwCreateWindow` returning `NULL`. -/
def noWindowEnv : Env ℚ :=
  { sampleEnv with glfwCreateWindow := false }

/-- A single monitor that reports a DPI scale of one half. -/
def halfScaleMonitors : List (ImGuiPlatformMonitor ℚ) :=
  [⟨⟨1920, 1080⟩, 1 / 2⟩]

/-! ## The key callback -/

/-- C1: for every key, scancode, action and modifier set, `key_callback` sets
the should-close flag to true exactly when the key is Escape and the action is
a press, leaving the rest of the window state as it was; for every other
pair, Escape with release or repeat included, the whole window state is left
as it was; the callback never turns a set flag off. -/
theorem key_callback_escape_press (window : Window) (key scancode action mods : Int) :
    (key = GLFW_KEY_ESCAPE ∧ action = GLFW_PRESS →
      key_callback window key scancode action mods
        = { shouldClose := GLFW_TRUE, keyCallbackSet := window.keyCallbackSet }) ∧
    (¬ (key = GLFW_KEY_ESCAPE ∧ action = GLFW_PRESS) →
      key_callback window key scancode action mods = window) ∧
    (glfwWindowShouldClose window = GLFW_FALSE →
      (glfwWindowShouldClose (key_callback window key scancode action mods) = GLFW_TRUE
        ↔ key = GLFW_KEY_ESCAPE ∧ action = GLFW_PRESS)) ∧
    (key_callback window key scancode action mods ≠ window →
      key = GLFW_KEY_ESCAPE ∧ action = GLFW_PRESS) ∧
    key_callback window GLFW_KEY_ESCAPE scancode GLFW_RELEASE mods = window ∧
    key_callback window GLFW_KEY_ESCAPE scancode GLFW_REPEAT mods = window ∧
    (glfwWindowShouldClose window ≠ GLFW_FALSE →
      glfwWindowShouldClose (key_callback window key scancode action mods) ≠ GLFW_FALSE) := by
  refine ⟨?_, ?_, ?_, ?_, ?_, ?_, ?_⟩
  · intro h
    simp [key_callback, h, glfwSetWindowShouldClose]
  · intro h
    simp [key_callback, h]
  · intro h0
    by_cases h : key = GLFW_KEY_ESCAPE ∧ action = GLFW_PRESS
    · simp [key_callback, h, glfwSetWindowShouldClose, glfwWindowShouldClose]
    · have hk : key_callback window key scancode action mods = window := by
        simp [key_callback, h]
      rw [hk, h0]
      simp [h, GLFW_FALSE, GLFW_TRUE]
  · intro hne
    by_contra h
    exact hne (by simp [key_callback, h])
  · simp [key_callback, GLFW_RELEASE, GLFW_PRESS]
  · simp [key_callback, GLFW_REPEAT, GLFW_PRESS]
  · intro h0
    by_cases h : key = GLFW_KEY_ESCAPE ∧ action = GLFW_PRESS
    · simp [key_callback, h, glfwSetWindowShouldClose, glfwWindowShouldClose, GLFW_TRUE,
        GLFW_FALSE]
    · simpa [key_callback, h] using h0

/-! ## Early exits of main -/

/-- C2: when `glfwInit` returns false, `main` exits with `EXIT_FAILURE`
whatever the fuel, and its trace is the two calls `glfwSetErrorCallback`,
`glfwInit`: no window creation, no context or GL-loader call, no GUI call, no
OpenGL call and no call of the render loop. -/
theorem main_init_failure {α : Type} [LinearOrderedField α] [FloorRing α]
    (ops : FloatOps α) (env : Env α) (fuel : Nat) (h : env.glfwInit = GLFW_FALSE) :
    main ops env fuel = some ([Call.glfwSetErrorCallback, Call.glfwInit], EXIT_FAILURE) ∧
    ∀ trace code, main ops env fuel = some (trace, code) →
      code = EXIT_FAILURE ∧
      ∀ c ∈ trace, c.isCreateWindow = false ∧ c.isMakeContextCurrent = false ∧
        c.library ≠ Library.glad ∧ c.library ≠ Library.imgui ∧ c.library ≠ Library.gl ∧
        c.isLoopCall = false := by
  have hmain : main ops env fuel
      = some ([Call.glfwSetErrorCallback, Call.glfwInit], EXIT_FAILURE) := by
    simp [main, h, GLFW_FALSE, initCalls]
  refine ⟨hmain, ?_⟩
  intro trace code hrun
  rw [hmain] at hrun
  simp only [Option.some.injEq, Prod.mk.injEq] at hrun
  obtain ⟨rfl, rfl⟩ := hrun
  refine ⟨rfl, ?_⟩
  intro c hc
  simp only [List.mem_cons, List.mem_singleton, List.not_mem_nil, or_false] at hc
  rcases hc with rfl | rfl <;>
    simp [Call.isCreateWindow, Call.isMakeContextCurrent, Call.library, Call.isLoopCall]

/-- Witness of C2 on the environment whose `glfwInit` fails. -/
theorem main_init_failure_witness :
    initFailsEnv.glfwInit = GLFW_FALSE ∧
    main opsAtZero initFailsEnv 0
      = some ([Call.glfwSetErrorCallback, Call.glfwInit], EXIT_FAILURE) :=
  ⟨rfl, (main_init_failure opsAtZero initFailsEnv 0 rfl).1⟩

/-- C3: when `glfwInit` succeeds and `glfwCreateWindow` returns null, `main`
exits with `EXIT_FAILURE` whatever the fuel; its trace ends with the failed
`glfwCreateWindow` followed by `glfwTerminate`, which is the only
`glfwTerminate` of the trace, and holds no `glfwSetKeyCallback`, no
`glfwMakeContextCurrent`, no GL-loader, GUI or OpenGL call and no call of the
render loop. -/
theorem main_window_failure {α : Type} [LinearOrderedField α] [FloorRing α]
    (ops : FloatOps α) (env : Env α) (fuel : Nat)
    (hinit : env.glfwInit ≠ GLFW_FALSE) (hwin : env.glfwCreateWindow = false) :
    ∃ trace : List (Call α),
      main ops env fuel = some (trace, EXIT_FAILURE) ∧
      trace =
        [Call.glfwSetErrorCallback, Call.glfwInit,
         Call.glfwWindowHint .GLFW_CONTEXT_VERSION_MAJOR (.int 3),
         Call.glfwWindowHint .GLFW_CONTEXT_VERSION_MINOR (.int 3),
         Call.glfwWindowHint .GLFW_OPENGL_PROFILE .GLFW_OPENGL_CORE_PROFILE,
         Call.glfwCreateWindow 1920 1080 "OpenGL Triangle",
         Call.glfwTerminate] ∧
      (trace.filter Call.isTerminate).length = 1 ∧
      (∃ before, trace = before ++ [Call.glfwCreateWindow 1920 1080 "OpenGL Triangle",
          Call.glfwTerminate] ∧ ∀ c ∈ before, c.isCreateWindow = false ∧
            c.isTerminate = false) ∧
      ∀ c ∈ trace, c.isSetKeyCallback = false ∧ c.isMakeContextCurrent = false ∧
        c.library ≠ Library.glad ∧ c.library ≠ Library.imgui ∧ c.library ≠ Library.gl ∧
        c.isLoopCall = false := by
  have h0 : ¬ env.glfwInit = 0 := by simpa [GLFW_FALSE] using hinit
  refine ⟨_, ?_, rfl, ?_, ?_, ?_⟩
  · simp [main, h0, hwin, initCalls, createWindowCalls]
  · simp [List.filter, Call.isTerminate]
  · refine ⟨[Call.glfwSetErrorCallback, Call.glfwInit,
      Call.glfwWindowHint .GLFW_CONTEXT_VERSION_MAJOR (.int 3),
      Call.glfwWindowHint .GLFW_CONTEXT_VERSION_MINOR (.int 3),
      Call.glfwWindowHint .GLFW_OPENGL_PROFILE .GLFW_OPENGL_CORE_PROFILE], rfl, ?_⟩
    intro c hc
    simp only [List.mem_cons, List.mem_singleton, List.not_mem_nil, or_false] at hc
    rcases hc with rfl | rfl | rfl | rfl | rfl <;>
      simp [Call.isCreateWindow, Call.isTerminate]
  · intro c hc
    simp only [List.mem_cons, List.mem_singleton, List.not_mem_nil, or_false] at hc
    rcases hc with rfl | rfl | rfl | rfl | rfl | rfl | rfl <;>
      simp [Call.isSetKeyCallback, Call.isMakeContextCurrent, Call.library, Call.isLoopCall]

/-- Witness of C3 on the environment whose `glfwCreateWindow` returns null. -/
theorem main_window_failure_witness :
    noWindowEnv.glfwInit ≠ GLFW_FALSE ∧ noWindowEnv.glfwCreateWindow = false ∧
    ∃ trace : List (Call ℚ),
      main opsAtZero noWindowEnv 0 = some (trace, EXIT_FAILURE) ∧
      (trace.filter Call.isTerminate).length = 1 :=
  ⟨by decide, rfl,
    (main_window_failure opsAtZero noWindowEnv 0 (by decide) rfl).imp
      (fun _ h => ⟨h.1, h.2.2.1⟩)⟩

/-! ## The render loop and the should-close flag -/

/-- Delivering an event never changes which key callback is installed. -/
theorem deliver_keyCallbackSet (window : Window) (e : Event) :
    (deliver window e).keyCallbackSet = window.keyCallbackSet := by
  cases e with
  | key key scancode action mods =>
    by_cases hcb : window.keyCallbackSet = true <;>
      by_cases h : key = GLFW_KEY_ESCAPE ∧ action = GLFW_PRESS <;>
        simp [deliver, key_callback, glfwSetWindowShouldClose, hcb, h]
  | closeRequest => simp [deliver, glfwSetWindowShouldClose]
  | other => simp [deliver]

/-- Delivering an event to a window whose flag is `GLFW_TRUE` leaves it so. -/
theorem deliver_keeps_true (window : Window) (e : Event)
    (h : window.shouldClose = GLFW_TRUE) : (deliver window e).shouldClose = GLFW_TRUE := by
  cases e with
  | key key scancode action mods =>
    by_cases hcb : window.keyCallbackSet = true <;>
      by_cases hk : key = GLFW_KEY_ESCAPE ∧ action = GLFW_PRESS <;>
        simp [deliver, key_callback, glfwSetWindowShouldClose, hcb, hk, h]
  | closeRequest => simp [deliver, glfwSetWindowShouldClose]
  | other => simpa [deliver] using h

/-- Delivering an event never clears a flag that is set. -/
theorem deliver_keeps_set (window : Window) (e : Event)
    (h : window.shouldClose ≠ GLFW_FALSE) : (deliver window e).shouldClose ≠ GLFW_FALSE := by
  cases e with
  | key key scancode action mods =>
    by_cases hcb : window.keyCallbackSet = true <;>
      by_cases hk : key = GLFW_KEY_ESCAPE ∧ action = GLFW_PRESS <;>
        simp [deliver, key_callback, glfwSetWindowShouldClose, hcb, hk, h, GLFW_TRUE,
          GLFW_FALSE]
    all_goals simpa [GLFW_FALSE] using h
  | closeRequest => simp [deliver, glfwSetWindowShouldClose, GLFW_TRUE, GLFW_FALSE]
  | other => simpa [deliver] using h

/-- Polling never changes which key callback is installed. -/
theorem glfwPollEvents_keyCallbackSet (events : List Event) (window : Window) :
    (glfwPollEvents window events).keyCallbackSet = window.keyCallbackSet := by
  induction events generalizing window with
  | nil => rfl
  | cons e rest ih =>
    show (glfwPollEvents (deliver window e) rest).keyCallbackSet = _
    rw [ih, deliver_keyCallbackSet]

/-- Polling leaves a flag that is `GLFW_TRUE` at `GLFW_TRUE`. -/
theorem glfwPollEvents_keeps_true (events : List Event) (window : Window)
    (h : window.shouldClose = GLFW_TRUE) :
    (glfwPollEvents window events).shouldClose = GLFW_TRUE := by
  induction events generalizing window with
  | nil => exact h
  | cons e rest ih => exact ih (deliver window e) (deliver_keeps_true window e h)

/-- Polling never clears a flag that is set. -/
theorem glfwPollEvents_keeps_set (events : List Event) (window : Window)
    (h : window.shouldClose ≠ GLFW_FALSE) :
    (glfwPollEvents window events).shouldClose ≠ GLFW_FALSE := by
  induction events generalizing window with
  | nil => exact h
  | cons e rest ih => exact ih (deliver window e) (deliver_keeps_set window e h)

/-- A poll that delivers an Escape press to a window with the key callback
installed ends with the flag at `GLFW_TRUE`. -/
theorem glfwPollEvents_escape (events : List Event) (window : Window) (scancode mods : Int)
    (hcb : window.keyCallbackSet = true)
    (hesc : Event.key GLFW_KEY_ESCAPE scancode GLFW_PRESS mods ∈ events) :
    (glfwPollEvents window events).shouldClose = GLFW_TRUE := by
  induction events generalizing window with
  | nil => cases hesc
  | cons e rest ih =>
    rcases List.mem_cons.mp hesc with he | hrest
    · subst he
      exact glfwPollEvents_keeps_true rest (deliver window _)
        (by simp [deliver, key_callback, glfwSetWindowShouldClose, hcb])
    · exact ih (deliver window e) (by rw [deliver_keyCallbackSet]; exact hcb) hrest

/-- A loop entered with the flag set makes the condition check and exits. -/
theorem renderLoop_closed {α : Type} [LinearOrderedField α] [FloorRing α]
    (ops : FloatOps α) (env : Env α) (fuel i : Nat) (window : Window)
    (h : glfwWindowShouldClose window ≠ GLFW_FALSE) :
    renderLoop ops env (fuel + 1) i window = some (window, [Call.glfwWindowShouldClose]) := by
  have h0 : ¬ glfwWindowShouldClose window = 0 := by simpa [GLFW_FALSE] using h
  simp [renderLoop, h0]

/-- C4: if iteration `k` of the render loop begins (flag clear at the
condition check, key callback installed) and an Escape press is delivered by
its poll, then the flag is true right after the poll, the rest of the body
leaves the window state as the poll left it, the body runs from
`glfwPollEvents` to `glfwSwapBuffers`, and the loop exits at the next
condition check with no further iteration, given fuel for two checks. The
transition is one-way: a body never clears a set flag, a loop entered with
the flag set runs no body, and the key callback installed by `main` stays
installed. -/
theorem renderLoop_exits_after_escape {α : Type} [LinearOrderedField α] [FloorRing α]
    (ops : FloatOps α) (env : Env α) (k : Nat) (window : Window) (scancode mods : Int)
    (hcb : window.keyCallbackSet = true)
    (hopen : glfwWindowShouldClose window = GLFW_FALSE)
    (hesc : Event.key GLFW_KEY_ESCAPE scancode GLFW_PRESS mods ∈ (env.frames k).events) :
    glfwWindowShouldClose (glfwPollEvents window (env.frames k).events) = GLFW_TRUE ∧
    (loopBody ops env (env.frames k) window).1
      = glfwPollEvents window (env.frames k).events ∧
    (∃ middle, (loopBody ops env (env.frames k) window).2
      = Call.glfwPollEvents :: middle ++ [Call.glfwSwapBuffers]) ∧
    (∀ fuel, renderLoop ops env (fuel + 2) k window
      = some ((loopBody ops env (env.frames k) window).1,
          Call.glfwWindowShouldClose :: (loopBody ops env (env.frames k) window).2
            ++ [Call.glfwWindowShouldClose])) ∧
    (∀ (frame : FrameInput α) (w : Window), glfwWindowShouldClose w ≠ GLFW_FALSE →
      glfwWindowShouldClose (loopBody ops env frame w).1 ≠ GLFW_FALSE) ∧
    (∀ (fuel i : Nat) (w : Window), glfwWindowShouldClose w ≠ GLFW_FALSE →
      renderLoop ops env (fuel + 1) i w = some (w, [Call.glfwWindowShouldClose])) ∧
    (glfwSetKeyCallback newWindow).keyCallbackSet = true ∧
    (∀ (frame : FrameInput α) (w : Window),
      (loopBody ops env frame w).1.keyCallbackSet = w.keyCallbackSet) := by
  have hpoll : glfwWindowShouldClose (glfwPollEvents window (env.frames k).events)
      = GLFW_TRUE :=
    glfwPollEvents_escape _ window scancode mods hcb hesc
  refine ⟨hpoll, rfl,
    ⟨(loopBody ops env (env.frames k) window).2.tail.dropLast, rfl⟩, ?_, ?_, ?_, rfl, ?_⟩
  · intro fuel
    have hclosed : glfwWindowShouldClose (loopBody ops env (env.frames k) window).1
        ≠ GLFW_FALSE := by
      show glfwWindowShouldClose (glfwPollEvents window (env.frames k).events) ≠ GLFW_FALSE
      rw [hpoll]
      decide
    have h0 : glfwWindowShouldClose window = 0 := by simpa [GLFW_FALSE] using hopen
    have hnext := renderLoop_closed ops env fuel (k + 1) _ hclosed
    show renderLoop ops env (fuel + 1 + 1) k window = _
    rw [renderLoop]
    simp only [h0, if_true]
    rw [hnext]
  · intro frame w hw
    exact glfwPollEvents_keeps_set frame.events w hw
  · intro fuel i w hw
    exact renderLoop_closed ops env fuel i w hw
  · intro frame w
    exact glfwPollEvents_keyCallbackSet frame.events w

/-- Witness of C4: in `sampleEnv` Escape is pressed in iteration 2. -/
theorem renderLoop_exits_after_escape_witness :
    (glfwSetKeyCallback newWindow).keyCallbackSet = true ∧
    glfwWindowShouldClose (glfwSetKeyCallback newWindow) = GLFW_FALSE ∧
    Event.key GLFW_KEY_ESCAPE 9 GLFW_PRESS 0 ∈ (sampleEnv.frames 2).events ∧
    glfwWindowShouldClose
      (glfwPollEvents (glfwSetKeyCallback newWindow) (sampleEnv.frames 2).events)
      = GLFW_TRUE :=
  ⟨rfl, rfl, by simp [sampleEnv, escapeFrame],
    (renderLoop_exits_after_escape opsAtZero sampleEnv 2 (glfwSetKeyCallback newWindow) 9 0
      rfl rfl (by simp [sampleEnv, escapeFrame])).1⟩

/-! ## The aspect ratio -/

/-- C5: for a framebuffer of width `W >= 0` and height `H > 0` the ratio of
the loop body is the exact quotient `W / H` (it is nonnegative and gives
back `W` when multiplied by `H`), and the projection is the
orthographic projection with left bound `-(W / H)` and right bound `W / H`;
800x600 gives 4/3, 1920x1080 gives 16/9 and 600x800 gives 3/4, which is
neither the truncated integer quotient nor `H / W`. -/
theorem frameTransforms_ratio {α : Type} [LinearOrderedField α] [FloorRing α]
    (ops : FloatOps α) (W H : Int) (time : α) (hW : 0 ≤ W) (hH : 0 < H) :
    (frameTransforms ops W H time).ratio = (W : α) / (H : α) ∧
    (frameTransforms ops W H time).ratio * (H : α) = (W : α) ∧
    0 ≤ (frameTransforms ops W H time).ratio ∧
    (frameTransforms ops W H time).p
      = ortho (-((W : α) / (H : α))) ((W : α) / (H : α)) (-1) 1 1 (-1) ∧
    (frameTransforms ops 800 600 time).ratio = 4 / 3 ∧
    (frameTransforms ops 1920 1080 time).ratio = 16 / 9 ∧
    (frameTransforms ops 600 800 time).ratio = 3 / 4 ∧
    (frameTransforms ops 800 600 time).ratio ≠ (((800 : Int) / (600 : Int) : Int) : α) ∧
    (frameTransforms ops 800 600 time).ratio ≠ ((600 : Int) : α) / ((800 : Int) : α) := by
  have hHpos : (0 : α) < (H : α) := by exact_mod_cast hH
  have hWnn : (0 : α) ≤ (W : α) := by exact_mod_cast hW
  refine ⟨rfl, ?_, ?_, rfl, ?_, ?_, ?_, ?_, ?_⟩
  · show (W : α) / (H : α) * (H : α) = (W : α)
    exact div_mul_cancel₀ _ (ne_of_gt hHpos)
  · show (0 : α) ≤ (W : α) / (H : α)
    exact div_nonneg hWnn (le_of_lt hHpos)
  all_goals simp only [frameTransforms]
  all_goals norm_num

/-- Witness of C5 at the framebuffer size 800x600 over the rationals. -/
theorem frameTransforms_ratio_witness :
    (0 : Int) ≤ 800 ∧ (0 : Int) < 600 ∧
    (frameTransforms opsAtZero 800 600 0).ratio = ((800 : Int) : ℚ) / ((600 : Int) : ℚ) :=
  ⟨by decide, by decide,
    (frameTransforms_ratio opsAtZero 800 600 0 (by decide) (by decide)).1⟩

/-! ## The DPI scale -/

/-- The loop over the monitors from any starting scale: the result is at
least the starting scale and every `DpiScale` seen, and is one of them. -/
theorem monitorStep_foldl {α : Type} [LinearOrderedField α] [FloorRing α]
    (Monitors : List (ImGuiPlatformMonitor α)) (acc : α × List (Call α)) :
    acc.1 ≤ (Monitors.foldl monitorStep acc).1 ∧
    (∀ m ∈ Monitors, m.DpiScale ≤ (Monitors.foldl monitorStep acc).1) ∧
    ((Monitors.foldl monitorStep acc).1 = acc.1 ∨
      ∃ m ∈ Monitors, m.DpiScale = (Monitors.foldl monitorStep acc).1) := by
  induction Monitors generalizing acc with
  | nil => simp
  | cons m rest ih =>
    obtain ⟨h1, h2, h3⟩ := ih (monitorStep acc m)
    have hstep : (monitorStep acc m).1 = if acc.1 < m.DpiScale then m.DpiScale else acc.1 := rfl
    have hacc : acc.1 ≤ (monitorStep acc m).1 := by
      rw [hstep]; split_ifs with h
      · exact le_of_lt h
      · exact le_refl _
    have hm : m.DpiScale ≤ (monitorStep acc m).1 := by
      rw [hstep]; split_ifs with h
      · exact le_refl _
      · exact not_lt.mp h
    refine ⟨le_trans hacc h1, ?_, ?_⟩
    · intro m' hm'
      rcases List.mem_cons.mp hm' with rfl | hr
      · exact le_trans hm h1
      · exact h2 m' hr
    · rcases h3 with h3 | ⟨m', hm', heq⟩
      · rw [List.foldl_cons, h3, hstep]
        split_ifs with h
        · exact Or.inr ⟨m, List.mem_cons_self _ _, rfl⟩
        · exact Or.inl rfl
      · exact Or.inr ⟨m', List.mem_cons_of_mem _ hm', heq⟩

/-- C6, at a concrete input: for a single monitor reporting a DPI scale of
one half the computed scale factor is 1, not the maximum DpiScale of the
list, which is one half; 1 is passed to `ScaleAllSizes` and the font size is
13. -/
theorem MonitorScale_counterexample :
    MonitorScale halfScaleMonitors = 1 ∧
    (halfScaleMonitors.map ImGuiPlatformMonitor.DpiScale).maximum = ((1 / 2 : ℚ) : WithBot ℚ) ∧
    (halfScaleMonitors.map ImGuiPlatformMonitor.DpiScale).maximum
      ≠ ((MonitorScale halfScaleMonitors : ℚ) : WithBot ℚ) ∧
    Call.ImGuiStyle_ScaleAllSizes (1 : ℚ) ∈ UpdateImGUIDpiScale halfScaleMonitors ∧
    Call.ImFontAtlas_AddFontFromFileTTF "../resources/fonts/DejaVuSansMono.ttf" (13 : ℚ)
      ∈ UpdateImGUIDpiScale halfScaleMonitors := by
  have hs : MonitorScale halfScaleMonitors = 1 := by
    simp only [MonitorScale, monitorLoop, halfScaleMonitors, List.foldl, monitorStep]
    norm_num
  have hmax : (halfScaleMonitors.map ImGuiPlatformMonitor.DpiScale).maximum
      = ((1 / 2 : ℚ) : WithBot ℚ) := by
    simp [halfScaleMonitors, List.maximum_singleton]
  refine ⟨hs, hmax, ?_, ?_, ?_⟩
  · rw [hs, hmax]
    intro h
    have := WithBot.coe_injective h
    norm_num at this
  · simp [UpdateImGUIDpiScale, hs]
  · simp [UpdateImGUIDpiScale, hs]

/-- C6, amended: for every list of monitors the scale factor computed by
`UpdateImGUIDpiScale` is the maximum of 1 and the DpiScale values of the
list: it is at least 1 and at least every DpiScale, and it is 1 or the
DpiScale of a monitor of the list; when some monitor reports a DpiScale of
at least 1 it is the maximum DpiScale of the list. That value is passed to
`ScaleAllSizes`, and 13 times it is the font size. -/
theorem MonitorScale_max_with_one {α : Type} [LinearOrderedField α] [FloorRing α]
    (Monitors : List (ImGuiPlatformMonitor α)) :
    1 ≤ MonitorScale Monitors ∧
    (∀ m ∈ Monitors, m.DpiScale ≤ MonitorScale Monitors) ∧
    (MonitorScale Monitors = 1 ∨ ∃ m ∈ Monitors, m.DpiScale = MonitorScale Monitors) ∧
    ((∃ m ∈ Monitors, 1 ≤ m.DpiScale) →
      ∃ m ∈ Monitors, m.DpiScale = MonitorScale Monitors ∧
        ∀ n ∈ Monitors, n.DpiScale ≤ m.DpiScale) ∧
    UpdateImGUIDpiScale Monitors
      = (monitorLoop Monitors).2 ++
        [Call.ImGuiStyle_ScaleAllSizes (MonitorScale Monitors),
         Call.ImFontAtlas_AddFontFromFileTTF "../resources/fonts/DejaVuSansMono.ttf"
           (13 * MonitorScale Monitors)] := by
  obtain ⟨h1', h2', h3'⟩ := monitorStep_foldl Monitors ((1 : α), [])
  have h1 : 1 ≤ MonitorScale Monitors := h1'
  have h2 : ∀ m ∈ Monitors, m.DpiScale ≤ MonitorScale Monitors := h2'
  have h3 : MonitorScale Monitors = 1 ∨
      ∃ m ∈ Monitors, m.DpiScale = MonitorScale Monitors := h3'
  clear h1' h2' h3'
  refine ⟨h1, h2, h3, ?_, rfl⟩
  rintro ⟨m, hm, hge⟩
  rcases h3 with h3 | ⟨m', hm', heq⟩
  · have hle := h2 m hm
    refine ⟨m, hm, ?_, ?_⟩
    · exact le_antisymm hle (by rw [h3]; exact hge)
    · intro n hn
      exact le_trans (h2 n hn) (by rw [h3]; exact hge)
  · refine ⟨m', hm', heq, ?_⟩
    intro n hn
    rw [heq]
    exact h2 n hn

/-! ## The transforms -/

/-- The rotation of the identity about `(0, 0, 1)`, for any `cos` and `sin`
and a `sqrt` with `sqrt 1 = 1`. -/
theorem rotate_diag_one_z {α : Type} [LinearOrderedField α] (ops : FloatOps α) (T : α)
    (hsqrt : ops.sqrt 1 = 1) :
    rotate ops (Mat4.diag 1) T ⟨0, 0, 1⟩
      = ⟨⟨ops.cos T, ops.sin T, 0, 0⟩, ⟨-ops.sin T, ops.cos T, 0, 0⟩,
         ⟨0, 0, 1, 0⟩, ⟨0, 0, 0, 1⟩⟩ := by
  simp [rotate, normalize, inversesqrt, Vec3.dot, Vec3.scale, Vec3.smul, Vec4.scale,
    Vec4.add, Mat4.diag, hsqrt]

/-- The projection of the loop body for a nonzero ratio. -/
theorem ortho_ratio {α : Type} [LinearOrderedField α] (r : α) (hr : r ≠ 0) :
    ortho (-r) r (-1) 1 1 (-1)
      = ⟨⟨1 / r, 0, 0, 0⟩, ⟨0, 1, 0, 0⟩, ⟨0, 0, 1, 0⟩, ⟨0, 0, 0, 1⟩⟩ := by
  have h2 : r - -r = 2 * r := by ring
  simp only [ortho, Mat4.diag, h2]
  refine Mat4.ext ?_ ?_ ?_ ?_ <;> refine Vec4.ext ?_ ?_ ?_ ?_ <;> simp
  · field_simp
  all_goals norm_num

/-- The model matrix of a frame over the reals, in closed form. -/
theorem frameTransforms_m_eq (T : ℝ) (W H : Int) :
    (frameTransforms ⟨Real.cos, Real.sin, Real.sqrt⟩ W H T).m
      = ⟨⟨Real.cos T, Real.sin T, 0, 0⟩, ⟨-Real.sin T, Real.cos T, 0, 0⟩,
         ⟨0, 0, 1, 0⟩, ⟨0, 0, 0, 1⟩⟩ :=
  rotate_diag_one_z ⟨Real.cos, Real.sin, Real.sqrt⟩ T Real.sqrt_one

/-- The projection matrix of a frame with positive width and height, in
closed form. -/
theorem frameTransforms_p_eq {α : Type} [LinearOrderedField α] [FloorRing α]
    (ops : FloatOps α) (W H : Int) (time : α) (hW : 0 < W) (hH : 0 < H) :
    (frameTransforms ops W H time).p
      = ⟨⟨1 / ((W : α) / (H : α)), 0, 0, 0⟩, ⟨0, 1, 0, 0⟩, ⟨0, 0, 1, 0⟩, ⟨0, 0, 0, 1⟩⟩ := by
  have hHpos : (0 : α) < (H : α) := by exact_mod_cast hH
  have hWpos : (0 : α) < (W : α) := by exact_mod_cast hW
  exact ortho_ratio _ (ne_of_gt (div_pos hWpos hHpos))

/-- C7: for every elapsed time `T` (and every framebuffer size) the model
matrix of the loop body, the rotation of the identity about `(0, 0, 1)` by
`T` radians with the real `cos` and `sin`, is the standard Z rotation with
columns `(cos T, sin T, 0, 0)`, `(-sin T, cos T, 0, 0)`, `(0, 0, 1, 0)`,
`(0, 0, 0, 1)`; at `T = 0` it is the identity, and at `T = pi / 2` it maps the
X axis to +Y and the Y axis to -X. -/
theorem frameTransforms_m_rotation (T : ℝ) (W H : Int) :
    (frameTransforms ⟨Real.cos, Real.sin, Real.sqrt⟩ W H T).m
      = ⟨⟨Real.cos T, Real.sin T, 0, 0⟩, ⟨-Real.sin T, Real.cos T, 0, 0⟩,
         ⟨0, 0, 1, 0⟩, ⟨0, 0, 0, 1⟩⟩ ∧
    (frameTransforms ⟨Real.cos, Real.sin, Real.sqrt⟩ W H 0).m = Mat4.diag 1 ∧
    (frameTransforms ⟨Real.cos, Real.sin, Real.sqrt⟩ W H (Real.pi / 2)).m.mulVec ⟨1, 0, 0, 0⟩
      = ⟨0, 1, 0, 0⟩ ∧
    (frameTransforms ⟨Real.cos, Real.sin, Real.sqrt⟩ W H (Real.pi / 2)).m.mulVec ⟨0, 1, 0, 0⟩
      = ⟨-1, 0, 0, 0⟩ := by
  have hm := fun t : ℝ => frameTransforms_m_eq t W H
  refine ⟨hm T, ?_, ?_, ?_⟩
  · rw [hm]; simp [Mat4.diag]
  · rw [hm]; simp [Mat4.mulVec, Vec4.scale, Vec4.add]
  · rw [hm]; simp [Mat4.mulVec, Vec4.scale, Vec4.add]

/-- Associativity of the matrix products: `(p * m) * v = p * (m * v)`. -/
theorem Mat4.mul_mulVec {α : Type} [LinearOrderedField α] (p m : Mat4 α) (v : Vec4 α) :
    (p.mul m).mulVec v = p.mulVec (m.mulVec v) := by
  simp only [Mat4.mul, Mat4.mulVec, Vec4.scale, Vec4.add]
  refine Vec4.ext ?_ ?_ ?_ ?_ <;> simp only <;> ring

/-- C8: the matrix uploaded to the `MVP` uniform is `p * m` in that order:
for every framebuffer size, time and homogeneous vertex `v`, applying it to
`v` is applying the rotation `m` first and the projection `p` to the result,
and so is the `gl_Position` the vertex shader computes from it; for the
framebuffer 2x1 at `T = pi / 2` the matrix differs from the product in the
other order, `m * p`. -/
theorem frameTransforms_mvp_order {α : Type} [LinearOrderedField α] [FloorRing α]
    (ops : FloatOps α) (env : Env α) (frame : FrameInput α) (window : Window)
    (v : Vec4 α) (vCol : Vec3 α) (vPos : Vec2 α) :
    Call.glUniformMatrix4fv env.mvp_location 1 false
        (frameTransforms ops frame.width frame.height frame.time).mvp
      ∈ (loopBody ops env frame window).2 ∧
    (frameTransforms ops frame.width frame.height frame.time).mvp
      = (frameTransforms ops frame.width frame.height frame.time).p.mul
          (frameTransforms ops frame.width frame.height frame.time).m ∧
    (frameTransforms ops frame.width frame.height frame.time).mvp.mulVec v
      = (frameTransforms ops frame.width frame.height frame.time).p.mulVec
          ((frameTransforms ops frame.width frame.height frame.time).m.mulVec v) ∧
    (vertex_shader (frameTransforms ops frame.width frame.height frame.time).mvp vCol vPos).1
      = (frameTransforms ops frame.width frame.height frame.time).p.mulVec
          ((frameTransforms ops frame.width frame.height frame.time).m.mulVec
            ⟨vPos.x, vPos.y, 0, 1⟩) ∧
    (frameTransforms ⟨Real.cos, Real.sin, Real.sqrt⟩ 2 1 (Real.pi / 2)).mvp
      ≠ (frameTransforms ⟨Real.cos, Real.sin, Real.sqrt⟩ 2 1 (Real.pi / 2)).m.mul
          (frameTransforms ⟨Real.cos, Real.sin, Real.sqrt⟩ 2 1 (Real.pi / 2)).p := by
  refine ⟨?_, rfl, ?_, ?_, ?_⟩
  · simp [loopBody]
  · exact Mat4.mul_mulVec _ _ _
  · exact Mat4.mul_mulVec _ _ _
  · intro h
    have hm := frameTransforms_m_eq (Real.pi / 2) 2 1
    have hp := frameTransforms_p_eq ⟨Real.cos, Real.sin, Real.sqrt⟩ 2 1 (Real.pi / 2)
      (by decide) (by decide)
    have hmvp : (frameTransforms ⟨Real.cos, Real.sin, Real.sqrt⟩ 2 1 (Real.pi / 2)).mvp
        = (frameTransforms ⟨Real.cos, Real.sin, Real.sqrt⟩ 2 1 (Real.pi / 2)).p.mul
          (frameTransforms ⟨Real.cos, Real.sin, Real.sqrt⟩ 2 1 (Real.pi / 2)).m := rfl
    rw [hmvp, hm, hp] at h
    have hy := congrArg (fun M : Mat4 ℝ => M.c0.y) h
    simp [Mat4.mul, Mat4.mulVec, Vec4.scale, Vec4.add] at hy

/-- C9: for a framebuffer of width `W > 0` and height `H > 0`, and more
generally for every ratio `r > 0`, the orthographic projection with left
`-r`, right `r`, bottom `-1`, top `1`, near `1`, far `-1` is the diagonal
matrix `diag(1 / r, 1, 1, 1)`: no translation, no Y flip, Z scale `+1` (the
usual ordering near `-1`, far `1` gives `-1`); it divides `x` by `r` and
leaves `y`, `z` and `w` of every point unchanged. -/
theorem frameTransforms_p_diag {α : Type} [LinearOrderedField α] [FloorRing α]
    (ops : FloatOps α) (W H : Int) (time : α) (hW : 0 < W) (hH : 0 < H) :
    0 < (frameTransforms ops W H time).ratio ∧
    (frameTransforms ops W H time).p
      = ⟨⟨1 / ((W : α) / (H : α)), 0, 0, 0⟩, ⟨0, 1, 0, 0⟩, ⟨0, 0, 1, 0⟩, ⟨0, 0, 0, 1⟩⟩ ∧
    (∀ v : Vec4 α, (frameTransforms ops W H time).p.mulVec v
      = ⟨v.x / ((W : α) / (H : α)), v.y, v.z, v.w⟩) ∧
    (∀ r : α, 0 < r →
      ortho (-r) r (-1) 1 1 (-1)
        = ⟨⟨1 / r, 0, 0, 0⟩, ⟨0, 1, 0, 0⟩, ⟨0, 0, 1, 0⟩, ⟨0, 0, 0, 1⟩⟩ ∧
      (∀ v : Vec4 α, (ortho (-r) r (-1) 1 1 (-1)).mulVec v = ⟨v.x / r, v.y, v.z, v.w⟩) ∧
      (ortho (-r) r (-1) 1 1 (-1)).c2.z = 1 ∧
      (ortho (-r) r (-1) 1 (-1) 1).c2.z = -1) := by
  have hgen : ∀ r : α, 0 < r →
      ortho (-r) r (-1) 1 1 (-1)
        = ⟨⟨1 / r, 0, 0, 0⟩, ⟨0, 1, 0, 0⟩, ⟨0, 0, 1, 0⟩, ⟨0, 0, 0, 1⟩⟩ ∧
      (∀ v : Vec4 α, (ortho (-r) r (-1) 1 1 (-1)).mulVec v = ⟨v.x / r, v.y, v.z, v.w⟩) ∧
      (ortho (-r) r (-1) 1 1 (-1)).c2.z = 1 ∧
      (ortho (-r) r (-1) 1 (-1) 1).c2.z = -1 := by
    intro r hr
    have h := ortho_ratio r (ne_of_gt hr)
    refine ⟨h, ?_, ?_, ?_⟩
    · intro v
      rw [h]
      simp only [Mat4.mulVec, Vec4.scale, Vec4.add]
      refine Vec4.ext ?_ ?_ ?_ ?_ <;> simp only <;> ring
    · rw [h]
    · simp only [ortho, Mat4.diag]
      norm_num
  have hHpos : (0 : α) < (H : α) := by exact_mod_cast hH
  have hWpos : (0 : α) < (W : α) := by exact_mod_cast hW
  have hr : (0 : α) < (W : α) / (H : α) := div_pos hWpos hHpos
  obtain ⟨h1, h2, -, -⟩ := hgen _ hr
  exact ⟨hr, h1, h2, hgen⟩

/-- Witness of C9 at the framebuffer size 800x600 over the rationals. -/
theorem frameTransforms_p_diag_witness :
    (0 : Int) < 800 ∧ (0 : Int) < 600 ∧
    (frameTransforms opsAtZero 800 600 0).p
      = ⟨⟨1 / (((800 : Int) : ℚ) / ((600 : Int) : ℚ)), 0, 0, 0⟩, ⟨0, 1, 0, 0⟩,
         ⟨0, 0, 1, 0⟩, ⟨0, 0, 0, 1⟩⟩ :=
  ⟨by decide, by decide,
    (frameTransforms_p_diag opsAtZero 800 600 0 (by decide) (by decide)).2.1⟩

/-! ## The triangle in clip space -/

/-- The clip-space position of a vertex in closed form, over the reals. -/
theorem clipPosition_eq (T : ℝ) (W H : Int) (hW : 0 < W) (hH : 0 < H) (v : Vertex ℝ) :
    clipPosition ⟨Real.cos, Real.sin, Real.sqrt⟩ W H T v
      = ⟨(Real.cos T * v.pos.x - Real.sin T * v.pos.y) * (H : ℝ) / (W : ℝ),
         Real.sin T * v.pos.x + Real.cos T * v.pos.y, 0, 1⟩ := by
  have hHpos : (0 : ℝ) < (H : ℝ) := by exact_mod_cast hH
  have hWpos : (0 : ℝ) < (W : ℝ) := by exact_mod_cast hW
  have hm := frameTransforms_m_eq T W H
  have hp := frameTransforms_p_eq ⟨Real.cos, Real.sin, Real.sqrt⟩ W H T hW hH
  have hmvp : (frameTransforms ⟨Real.cos, Real.sin, Real.sqrt⟩ W H T).mvp
      = (frameTransforms ⟨Real.cos, Real.sin, Real.sqrt⟩ W H T).p.mul
        (frameTransforms ⟨Real.cos, Real.sin, Real.sqrt⟩ W H T).m := rfl
  simp only [clipPosition, vertex_shader, hmvp, hm, hp, Mat4.mul, Mat4.mulVec, Vec4.scale,
    Vec4.add]
  refine Vec4.ext ?_ ?_ ?_ ?_ <;> simp only
  · field_simp
    ring
  · ring
  · ring
  · ring

/-- A rotated point is no farther from the origin than the point: both
rotated coordinates are bounded by the square root of any bound on the
squared length. -/
theorem rotated_abs_le (T x y b : ℝ) (hb : x ^ 2 + y ^ 2 ≤ b) :
    |Real.sin T * x + Real.cos T * y| ≤ Real.sqrt b ∧
    |Real.cos T * x - Real.sin T * y| ≤ Real.sqrt b := by
  have hcs := Real.sin_sq_add_cos_sq T
  constructor
  · apply Real.abs_le_sqrt
    nlinarith [sq_nonneg (Real.cos T * x - Real.sin T * y)]
  · apply Real.abs_le_sqrt
    nlinarith [sq_nonneg (Real.sin T * x + Real.cos T * y)]

/-- C10: for every time `T` and framebuffer size with `W > 0` and `H > 0`,
each of the three hardcoded vertices has clip-space `w = 1`, `z = 0`,
`|y| <= sqrt 0.52 < 1` and `|x| <= sqrt 0.52 * H / W`; so it lies inside the
clip volume vertically and in depth, and horizontally too when `W >= H`. -/
theorem vertices_in_clip_volume (T : ℝ) (W H : Int) (hW : 0 < W) (hH : 0 < H) :
    ∀ v ∈ (vertices : List (Vertex ℝ)),
      (clipPosition ⟨Real.cos, Real.sin, Real.sqrt⟩ W H T v).w = 1 ∧
      (clipPosition ⟨Real.cos, Real.sin, Real.sqrt⟩ W H T v).z = 0 ∧
      |(clipPosition ⟨Real.cos, Real.sin, Real.sqrt⟩ W H T v).y| ≤ Real.sqrt 0.52 ∧
      Real.sqrt 0.52 < 1 ∧
      |(clipPosition ⟨Real.cos, Real.sin, Real.sqrt⟩ W H T v).x|
        ≤ Real.sqrt 0.52 * (H : ℝ) / (W : ℝ) ∧
      |(clipPosition ⟨Real.cos, Real.sin, Real.sqrt⟩ W H T v).y|
        < (clipPosition ⟨Real.cos, Real.sin, Real.sqrt⟩ W H T v).w ∧
      |(clipPosition ⟨Real.cos, Real.sin, Real.sqrt⟩ W H T v).z|
        < (clipPosition ⟨Real.cos, Real.sin, Real.sqrt⟩ W H T v).w ∧
      (H ≤ W → |(clipPosition ⟨Real.cos, Real.sin, Real.sqrt⟩ W H T v).x|
        < (clipPosition ⟨Real.cos, Real.sin, Real.sqrt⟩ W H T v).w) := by
  have hHpos : (0 : ℝ) < (H : ℝ) := by exact_mod_cast hH
  have hWpos : (0 : ℝ) < (W : ℝ) := by exact_mod_cast hW
  have hsqrt : Real.sqrt 0.52 < 1 := by
    rw [Real.sqrt_lt' (by norm_num)]
    norm_num
  have hsqrt0 : 0 ≤ Real.sqrt 0.52 := Real.sqrt_nonneg _
  intro v hv
  have hlen : v.pos.x ^ 2 + v.pos.y ^ 2 ≤ 0.52 := by
    simp only [vertices, List.mem_cons, List.mem_singleton, List.not_mem_nil, or_false] at hv
    rcases hv with rfl | rfl | rfl <;> norm_num
  obtain ⟨hy, hx⟩ := rotated_abs_le T v.pos.x v.pos.y 0.52 hlen
  have hxb : |(Real.cos T * v.pos.x - Real.sin T * v.pos.y) * (H : ℝ) / (W : ℝ)|
      ≤ Real.sqrt 0.52 * (H : ℝ) / (W : ℝ) := by
    rw [abs_div, abs_mul, abs_of_pos hHpos, abs_of_pos hWpos]
    exact div_le_div_of_nonneg_right (mul_le_mul_of_nonneg_right hx (le_of_lt hHpos))
      (le_of_lt hWpos)
  rw [clipPosition_eq T W H hW hH v]
  refine ⟨rfl, rfl, hy, hsqrt, hxb, ?_, ?_, ?_⟩
  · exact lt_of_le_of_lt hy hsqrt
  · simp
  · intro hle
    have hle' : (H : ℝ) ≤ (W : ℝ) := by exact_mod_cast hle
    have h1 : Real.sqrt 0.52 * (H : ℝ) / (W : ℝ) ≤ Real.sqrt 0.52 := by
      rw [div_le_iff₀ hWpos]
      exact mul_le_mul_of_nonneg_left hle' hsqrt0
    exact lt_of_le_of_lt (le_trans hxb h1) hsqrt

/-- Witness of C10: the top vertex at time 0 in a 800x600 framebuffer. -/
theorem vertices_in_clip_volume_witness :
    (0 : Int) < 800 ∧ (0 : Int) < 600 ∧
    (clipPosition ⟨Real.cos, Real.sin, Real.sqrt⟩ 800 600 0
      (⟨⟨0, 0.6⟩, ⟨0, 0, 1⟩⟩ : Vertex ℝ)).w = 1 :=
  ⟨by decide, by decide,
    (vertices_in_clip_volume 0 800 600 (by decide) (by decide) ⟨⟨0, 0.6⟩, ⟨0, 0, 1⟩⟩
      (by simp [vertices])).1⟩

end HelloWorld
